import Mathlib

/-! # GuardianEye fire detection sensor: threshold comparator with an alert latch

A shallow embedding of `src/fire_detection_sensor.cpp`.

* `Dbl` stands for the C++ `double` as far as the program uses it: the program only
  stores doubles, compares them with `>` and prints them.
* The console is an explicit list of output lines (`Line`), in the order written.
* The C library generator behind `rand()` is an explicit stream of the values it
  will return (`RandStream`), threaded through every function that calls `rand()`.
* Member functions take the object and return the updated object.
-/

namespace GuardianEye

/-! ## Doubles -/

/-- A `double` value: not-a-number, the two infinities, or a finite value.  Finite
doubles are rationals; both zeros compare equal and are the rational `0`. -/
inductive Dbl where
  | nan : Dbl
  | negInf : Dbl
  | fin (q : ℚ) : Dbl
  | posInf : Dbl
  deriving DecidableEq

namespace Dbl

/-- The C++ comparison `a > b` on doubles: false as soon as one side is NaN,
otherwise the order of the extended real line. -/
def gt : Dbl → Dbl → Bool
  | nan, _ => false
  | _, nan => false
  | negInf, _ => false
  | fin _, negInf => true
  | fin a, fin b => decide (b < a)
  | fin _, posInf => false
  | posInf, posInf => false
  | posInf, _ => true

/-- The conversion of a non-negative `int` to `double` (exact at the sizes used). -/
def ofNat (n : Nat) : Dbl := fin (n : ℚ)

/-- A positive finite number: neither NaN nor infinite, and greater than zero. -/
def isPositiveFinite : Dbl → Bool
  | fin q => decide (0 < q)
  | _ => false

end Dbl

/-! ## Console output and the random generator -/

/-- One line written to `std::cout`. -/
inductive Line where
  /-- The line `Sensor Readings - Temp: ..°C, Smoke: .. PPM, Gas: .. PPM`. -/
  | sensorReadings (temp smoke gas : Dbl) : Line
  /-- The line `FIRE ALERT!`, first line of `triggerAlert`. -/
  | fireAlert : Line
  /-- The line `Emergency protocols activated!`. -/
  | emergencyProtocols : Line
  /-- The line `Notifying authorities and personnel...`. -/
  | notifyingAuthorities : Line
  /-- The line `ALERT CLEARED: Conditions normal`. -/
  | alertCleared : Line
  /-- The line `GuardianEye Status: ALERT ACTIVE` (true) or `... MONITORING` (false). -/
  | status (alertActive : Bool) : Line
  /-- The line `Thresholds - Temp: ..°C, Smoke: .. PPM, Gas: .. PPM`. -/
  | thresholds (temp smoke gas : Dbl) : Line
  /-- The line `GuardianEye Fire Detection System Starting...`. -/
  | starting : Line
  /-- The line `--- Monitoring Cycle n ---`. -/
  | monitoringCycle (n : Nat) : Line
  /-- The line `GuardianEye monitoring session completed.`. -/
  | completed : Line
  deriving DecidableEq

/-- The values the following calls of `rand()` return, in order; each is an `int`
between `0` and `RAND_MAX`. -/
abbrev RandStream := Nat → Nat

/-- One call of `rand()`: the next value, and the generator after the call. -/
def rand (g : RandStream) : Nat × RandStream := (g 0, fun n => g (n + 1))

/-! ## The sensor class -/

/-- The four private fields of the class `FireDetectionSensor`. -/
structure FireDetectionSensor where
  temperatureThreshold : Dbl
  smokeThreshold : Dbl
  gasThreshold : Dbl
  alertActive : Bool
  deriving DecidableEq

namespace FireDetectionSensor

/-- The constructor `FireDetectionSensor(tempThresh = 60.0, smokeThresh = 300.0,
gasThresh = 1000.0)`: the member initialiser list copies the arguments and clears
the latch. -/
def construct (tempThresh : Dbl := Dbl.fin 60) (smokeThresh : Dbl := Dbl.fin 300)
    (gasThresh : Dbl := Dbl.fin 1000) : FireDetectionSensor :=
  { temperatureThreshold := tempThresh
    smokeThreshold := smokeThresh
    gasThreshold := gasThresh
    alertActive := false }

/-- `readTemperature`: `20.0 + (rand() % 50)`. -/
def readTemperature (g : RandStream) : Dbl × RandStream :=
  let (r, g1) := rand g
  (Dbl.ofNat (20 + r % 50), g1)

/-- `readSmokeLevel`: `rand() % 500`. -/
def readSmokeLevel (g : RandStream) : Dbl × RandStream :=
  let (r, g1) := rand g
  (Dbl.ofNat (r % 500), g1)

/-- `readGasLevel`: `rand() % 1500`. -/
def readGasLevel (g : RandStream) : Dbl × RandStream :=
  let (r, g1) := rand g
  (Dbl.ofNat (r % 1500), g1)

/-- `triggerAlert`: writes the three alert lines and touches no field. -/
def triggerAlert (s : FireDetectionSensor) : FireDetectionSensor × List Line :=
  (s, [Line.fireAlert, Line.emergencyProtocols, Line.notifyingAuthorities])

/-- The part of `detectFire` after the three sensor reads: print the readings,
compare them with the thresholds, update the latch, return `fireDetected`.
The result is the returned boolean, the object afterwards and the lines written. -/
def evaluate (s : FireDetectionSensor) (temp smoke gas : Dbl) :
    Bool × FireDetectionSensor × List Line :=
  let out0 := [Line.sensorReadings temp smoke gas]
  let fireDetected := Dbl.gt temp s.temperatureThreshold ||
                      Dbl.gt smoke s.smokeThreshold ||
                      Dbl.gt gas s.gasThreshold
  if fireDetected && !s.alertActive then
    let (s1, out1) := triggerAlert s
    (fireDetected, { s1 with alertActive := true }, out0 ++ out1)
  else if !fireDetected && s.alertActive then
    (fireDetected, { s with alertActive := false }, out0 ++ [Line.alertCleared])
  else
    (fireDetected, s, out0)

/-- `detectFire`: read temperature, smoke and gas in this order, then evaluate. -/
def detectFire (s : FireDetectionSensor) (g : RandStream) :
    Bool × FireDetectionSensor × RandStream × List Line :=
  let (temp, g1) := readTemperature g
  let (smoke, g2) := readSmokeLevel g1
  let (gas, g3) := readGasLevel g2
  let (fireDetected, s1, out) := evaluate s temp smoke gas
  (fireDetected, s1, g3, out)

/-- `getStatus`: writes the status line and the thresholds line, touches no field. -/
def getStatus (s : FireDetectionSensor) : FireDetectionSensor × List Line :=
  (s, [Line.status s.alertActive,
       Line.thresholds s.temperatureThreshold s.smokeThreshold s.gasThreshold])

end FireDetectionSensor

open FireDetectionSensor

/-- The `for` loop of `main` with `n` iterations left, `i` the loop variable:
each iteration writes the cycle header and calls `detectFire`, dropping its result. -/
def monitorLoop : Nat → Nat → FireDetectionSensor → RandStream →
    FireDetectionSensor × RandStream × List Line
  | 0, _, s, g => (s, g, [])
  | n + 1, i, s, g =>
    let (_, s1, g1, out1) := detectFire s g
    let (s2, g2, out2) := monitorLoop n (i + 1) s1 g1
    (s2, g2, Line.monitoringCycle (i + 1) :: out1 ++ out2)

/-- The function `main`: a default-constructed sensor, one `getStatus`, ten monitoring
cycles.  The result is the exit code and everything written. -/
def main (g : RandStream) : Int × List Line :=
  let guardian := construct
  let (guardian1, out1) := getStatus guardian
  let (_, _, out2) := monitorLoop 10 0 guardian1 g
  (0, Line.starting :: out1 ++ out2 ++ [Line.completed])

/-! ## Observations on the output -/

/-- Number of "alert raised" notifications in an output: every call of `triggerAlert`
writes the `fireAlert` line exactly once. -/
def raisedCount (out : List Line) : Nat := out.count Line.fireAlert

/-- Number of "alert cleared" notifications in an output. -/
def clearedCount (out : List Line) : Nat := out.count Line.alertCleared

/-- True when at least one component of the reading exceeds its threshold. -/
def breaches (s : FireDetectionSensor) (temp smoke gas : Dbl) : Prop :=
  Dbl.gt temp s.temperatureThreshold = true ∨
  Dbl.gt smoke s.smokeThreshold = true ∨
  Dbl.gt gas s.gasThreshold = true

instance (s : FireDetectionSensor) (temp smoke gas : Dbl) :
    Decidable (breaches s temp smoke gas) := by
  unfold breaches; infer_instance

/-- Everything a sequence of calls wrote, in order. -/
def written : List (Bool × List Line) → List Line
  | [] => []
  | (_, out) :: calls => out ++ written calls

/-- The notifications of an output alternate: reading the output from the start, the
first notification is "alert raised" when `raisedNext` is true and "alert cleared"
otherwise, and each notification after it is of the other kind than the one before.
Lines that are not notifications are skipped. -/
def alternates : Bool → List Line → Bool
  | _, [] => true
  | raisedNext, Line.fireAlert :: out => raisedNext && alternates false out
  | raisedNext, Line.alertCleared :: out => !raisedNext && alternates true out
  | raisedNext, _ :: out => alternates raisedNext out

/-- A reading: temperature, smoke, gas. -/
abbrev Reading := Dbl × Dbl × Dbl

/-- Evaluate a sequence of readings in order; the result is the final object and,
for every call, the returned boolean and the lines that call wrote. -/
def evaluateAll : FireDetectionSensor → List Reading →
    FireDetectionSensor × List (Bool × List Line)
  | s, [] => (s, [])
  | s, (t, sm, ga) :: rs =>
    let (b, s1, out) := evaluate s t sm ga
    let (s2, calls) := evaluateAll s1 rs
    (s2, (b, out) :: calls)

/-! ## Basic facts about one evaluation -/

/-- The boolean `evaluate` returns is the threshold disjunction. -/
lemma evaluate_result (s : FireDetectionSensor) (temp smoke gas : Dbl) :
    (evaluate s temp smoke gas).1 =
      (Dbl.gt temp s.temperatureThreshold || Dbl.gt smoke s.smokeThreshold ||
        Dbl.gt gas s.gasThreshold) := by
  unfold evaluate
  simp only []
  split_ifs <;> rfl

/-- After `evaluate` the latch equals the returned boolean. -/
lemma evaluate_alertActive (s : FireDetectionSensor) (temp smoke gas : Dbl) :
    (evaluate s temp smoke gas).2.1.alertActive = (evaluate s temp smoke gas).1 := by
  unfold evaluate triggerAlert
  rcases s with ⟨a, b, c, d⟩
  cases d <;>
    cases Dbl.gt temp a <;> cases Dbl.gt smoke b <;> cases Dbl.gt gas c <;> rfl

/-- The disjunction as a proposition. -/
lemma evaluate_result_iff (s : FireDetectionSensor) (temp smoke gas : Dbl) :
    (evaluate s temp smoke gas).1 = true ↔ breaches s temp smoke gas := by
  rw [evaluate_result]
  simp [breaches, or_assoc]

/-- What `detectFire` does: it evaluates the three values read from the generator. -/
lemma detectFire_eq (s : FireDetectionSensor) (g : RandStream) :
    detectFire s g =
      ((evaluate s (Dbl.ofNat (20 + g 0 % 50)) (Dbl.ofNat (g 1 % 500))
          (Dbl.ofNat (g 2 % 1500))).1,
       (evaluate s (Dbl.ofNat (20 + g 0 % 50)) (Dbl.ofNat (g 1 % 500))
          (Dbl.ofNat (g 2 % 1500))).2.1,
       (fun n => g (n + 3)),
       (evaluate s (Dbl.ofNat (20 + g 0 % 50)) (Dbl.ofNat (g 1 % 500))
          (Dbl.ofNat (g 2 % 1500))).2.2) := by
  rfl

/-- The lines one evaluation writes, by the four cases of the latch update. -/
lemma evaluate_output (s : FireDetectionSensor) (temp smoke gas : Dbl) :
    (evaluate s temp smoke gas).2.2 =
      if (evaluate s temp smoke gas).1 = true ∧ s.alertActive = false then
        [Line.sensorReadings temp smoke gas, Line.fireAlert, Line.emergencyProtocols,
          Line.notifyingAuthorities]
      else if (evaluate s temp smoke gas).1 = false ∧ s.alertActive = true then
        [Line.sensorReadings temp smoke gas, Line.alertCleared]
      else [Line.sensorReadings temp smoke gas] := by
  unfold evaluate triggerAlert
  rcases s with ⟨a, b, c, d⟩
  cases d <;>
    cases Dbl.gt temp a <;> cases Dbl.gt smoke b <;> cases Dbl.gt gas c <;> rfl

/-- One evaluation changes no field but the latch, which becomes the result. -/
lemma evaluate_state (s : FireDetectionSensor) (temp smoke gas : Dbl) :
    (evaluate s temp smoke gas).2.1 =
      { s with alertActive := (evaluate s temp smoke gas).1 } := by
  unfold evaluate triggerAlert
  rcases s with ⟨a, b, c, d⟩
  cases d <;>
    cases Dbl.gt temp a <;> cases Dbl.gt smoke b <;> cases Dbl.gt gas c <;> rfl

/-! ## Claims about one evaluation -/

/-- C1: whatever the thresholds and the prior latch state, a reading with at least one
component strictly above its threshold makes the evaluation step return true and
leaves the latch Alerting. -/
theorem C1_breach_returns_true_and_alerting (s : FireDetectionSensor)
    (temp smoke gas : Dbl) (h : breaches s temp smoke gas) :
    (evaluate s temp smoke gas).1 = true ∧
      (evaluate s temp smoke gas).2.1.alertActive = true := by
  have hres : (evaluate s temp smoke gas).1 = true := (evaluate_result_iff s temp smoke gas).2 h
  exact ⟨hres, by rw [evaluate_alertActive, hres]⟩

/-- C1 at thresholds (60, 300, 1000), latch Monitoring, reading (65, 100, 200). -/
theorem C1_breach_returns_true_and_alerting_witness :
    breaches construct (Dbl.fin 65) (Dbl.fin 100) (Dbl.fin 200) ∧
      (evaluate construct (Dbl.fin 65) (Dbl.fin 100) (Dbl.fin 200)).1 = true ∧
      (evaluate construct (Dbl.fin 65) (Dbl.fin 100) (Dbl.fin 200)).2.1.alertActive = true :=
  ⟨by decide,
    C1_breach_returns_true_and_alerting construct (Dbl.fin 65) (Dbl.fin 100) (Dbl.fin 200)
      (by decide)⟩

/-- C2: whatever the thresholds and the prior latch state, a reading with no component
strictly above its threshold (equality included) makes the evaluation step return
false and leaves the latch Monitoring. -/
theorem C2_no_breach_returns_false_and_monitoring (s : FireDetectionSensor)
    (temp smoke gas : Dbl) (h : ¬ breaches s temp smoke gas) :
    (evaluate s temp smoke gas).1 = false ∧
      (evaluate s temp smoke gas).2.1.alertActive = false := by
  have hres : (evaluate s temp smoke gas).1 = false := by
    rw [← Bool.not_eq_true]
    exact fun hb => h ((evaluate_result_iff s temp smoke gas).1 hb)
  exact ⟨hres, by rw [evaluate_alertActive, hres]⟩

/-- C2 at thresholds (60, 300, 1000), latch Alerting, reading equal to the thresholds. -/
theorem C2_no_breach_returns_false_and_monitoring_witness :
    ¬ breaches { construct with alertActive := true } (Dbl.fin 60) (Dbl.fin 300)
        (Dbl.fin 1000) ∧
      (evaluate { construct with alertActive := true } (Dbl.fin 60) (Dbl.fin 300)
        (Dbl.fin 1000)).1 = false ∧
      (evaluate { construct with alertActive := true } (Dbl.fin 60) (Dbl.fin 300)
        (Dbl.fin 1000)).2.1.alertActive = false :=
  ⟨by decide,
    C2_no_breach_returns_false_and_monitoring { construct with alertActive := true }
      (Dbl.fin 60) (Dbl.fin 300) (Dbl.fin 1000) (by decide)⟩

/-- The number of "alert raised" notifications of one evaluation. -/
lemma evaluate_raisedCount (s : FireDetectionSensor) (temp smoke gas : Dbl) :
    raisedCount (evaluate s temp smoke gas).2.2 =
      if (evaluate s temp smoke gas).1 = true ∧ s.alertActive = false then 1 else 0 := by
  rw [evaluate_output]
  split_ifs <;> simp [raisedCount]

/-- The number of "alert cleared" notifications of one evaluation. -/
lemma evaluate_clearedCount (s : FireDetectionSensor) (temp smoke gas : Dbl) :
    clearedCount (evaluate s temp smoke gas).2.2 =
      if (evaluate s temp smoke gas).1 = false ∧ s.alertActive = true then 1 else 0 := by
  rw [evaluate_output]
  split_ifs with h1 h2 <;> simp [clearedCount]
  rw [h1.1] at h2
  exact absurd h2.1 (by simp)

/-- C3: one evaluation emits "alert raised" exactly when the reading breaches at least
one threshold and the prior state was Monitoring; it then writes the three lines of
`triggerAlert` once, writes no "alert cleared", returns true and moves the latch from
Monitoring to Alerting.  Scenario: thresholds (60, 300, 1000), Monitoring, reading
(65, 100, 200). -/
theorem C3_alert_raised_iff_breach_from_monitoring (s : FireDetectionSensor)
    (temp smoke gas : Dbl) :
    (raisedCount (evaluate s temp smoke gas).2.2 ≠ 0 ↔
        (breaches s temp smoke gas ∧ s.alertActive = false)) ∧
    ((breaches s temp smoke gas ∧ s.alertActive = false) →
        evaluate s temp smoke gas =
          (true, { s with alertActive := true },
            [Line.sensorReadings temp smoke gas, Line.fireAlert, Line.emergencyProtocols,
              Line.notifyingAuthorities]) ∧
        raisedCount (evaluate s temp smoke gas).2.2 = 1 ∧
        clearedCount (evaluate s temp smoke gas).2.2 = 0) ∧
    (evaluate (construct (Dbl.fin 60) (Dbl.fin 300) (Dbl.fin 1000))
        (Dbl.fin 65) (Dbl.fin 100) (Dbl.fin 200) =
      (true,
        { temperatureThreshold := Dbl.fin 60, smokeThreshold := Dbl.fin 300,
          gasThreshold := Dbl.fin 1000, alertActive := true },
        [Line.sensorReadings (Dbl.fin 65) (Dbl.fin 100) (Dbl.fin 200), Line.fireAlert,
          Line.emergencyProtocols, Line.notifyingAuthorities]) ∧
      raisedCount (evaluate (construct (Dbl.fin 60) (Dbl.fin 300) (Dbl.fin 1000))
        (Dbl.fin 65) (Dbl.fin 100) (Dbl.fin 200)).2.2 = 1) := by
  refine ⟨?_, ?_, by decide, by decide⟩
  · rw [evaluate_raisedCount, ← evaluate_result_iff]
    split_ifs with h <;> simp [h]
  · rintro ⟨hb, hs⟩
    have hres : (evaluate s temp smoke gas).1 = true :=
      (evaluate_result_iff s temp smoke gas).2 hb
    refine ⟨?_, ?_, ?_⟩
    · apply Prod.ext
      · exact hres
      · apply Prod.ext
        · rw [evaluate_state, hres]
        · rw [evaluate_output, if_pos ⟨hres, hs⟩]
    · rw [evaluate_raisedCount, if_pos ⟨hres, hs⟩]
    · rw [evaluate_clearedCount, if_neg]
      rw [hres]
      simp

/-- C4: one evaluation emits "alert cleared" exactly when no component of the reading
exceeds its threshold and the prior state was Alerting; it then writes the cleared
line once, writes no "alert raised", returns false and moves the latch from Alerting
to Monitoring.  Scenario: thresholds (60, 300, 1000), Alerting, reading
(40, 100, 200). -/
theorem C4_alert_cleared_iff_normal_from_alerting (s : FireDetectionSensor)
    (temp smoke gas : Dbl) :
    (clearedCount (evaluate s temp smoke gas).2.2 ≠ 0 ↔
        (¬ breaches s temp smoke gas ∧ s.alertActive = true)) ∧
    ((¬ breaches s temp smoke gas ∧ s.alertActive = true) →
        evaluate s temp smoke gas =
          (false, { s with alertActive := false },
            [Line.sensorReadings temp smoke gas, Line.alertCleared]) ∧
        clearedCount (evaluate s temp smoke gas).2.2 = 1 ∧
        raisedCount (evaluate s temp smoke gas).2.2 = 0) ∧
    (evaluate
        { temperatureThreshold := Dbl.fin 60, smokeThreshold := Dbl.fin 300,
          gasThreshold := Dbl.fin 1000, alertActive := true }
        (Dbl.fin 40) (Dbl.fin 100) (Dbl.fin 200) =
      (false,
        { temperatureThreshold := Dbl.fin 60, smokeThreshold := Dbl.fin 300,
          gasThreshold := Dbl.fin 1000, alertActive := false },
        [Line.sensorReadings (Dbl.fin 40) (Dbl.fin 100) (Dbl.fin 200),
          Line.alertCleared]) ∧
      clearedCount (evaluate
        { temperatureThreshold := Dbl.fin 60, smokeThreshold := Dbl.fin 300,
          gasThreshold := Dbl.fin 1000, alertActive := true }
        (Dbl.fin 40) (Dbl.fin 100) (Dbl.fin 200)).2.2 = 1) := by
  refine ⟨?_, ?_, by decide, by decide⟩
  · rw [evaluate_clearedCount, ← evaluate_result_iff]
    split_ifs with h <;> simp [h]
  · rintro ⟨hb, hs⟩
    have hres : (evaluate s temp smoke gas).1 = false := by
      rw [← Bool.not_eq_true]
      exact fun h => hb ((evaluate_result_iff s temp smoke gas).1 h)
    refine ⟨?_, ?_, ?_⟩
    · apply Prod.ext
      · exact hres
      · apply Prod.ext
        · rw [evaluate_state, hres]
        · rw [evaluate_output, if_neg, if_pos ⟨hres, hs⟩]
          rw [hres]
          simp
    · rw [evaluate_clearedCount, if_pos ⟨hres, hs⟩]
    · rw [evaluate_raisedCount, if_neg]
      rw [hres]
      simp

/-! ## Sequences of evaluations -/

/-- The object after one evaluation, field by field. -/
lemma evaluate_state_fields (s : FireDetectionSensor) (temp smoke gas : Dbl) :
    (evaluate s temp smoke gas).2.1 =
      { temperatureThreshold := s.temperatureThreshold
        smokeThreshold := s.smokeThreshold
        gasThreshold := s.gasThreshold
        alertActive := (Dbl.gt temp s.temperatureThreshold ||
          Dbl.gt smoke s.smokeThreshold || Dbl.gt gas s.gasThreshold) } := by
  rw [evaluate_state, evaluate_result]

/-- Unfolding `evaluateAll` on the empty sequence. -/
lemma evaluateAll_nil (s : FireDetectionSensor) : evaluateAll s [] = (s, []) := rfl

/-- Unfolding `evaluateAll` on a non-empty sequence. -/
lemma evaluateAll_cons (s : FireDetectionSensor) (r : Reading) (rs : List Reading) :
    evaluateAll s (r :: rs) =
      ((evaluateAll (evaluate s r.1 r.2.1 r.2.2).2.1 rs).1,
        ((evaluate s r.1 r.2.1 r.2.2).1, (evaluate s r.1 r.2.1 r.2.2).2.2) ::
          (evaluateAll (evaluate s r.1 r.2.1 r.2.2).2.1 rs).2) := by
  rcases r with ⟨t, sm, ga⟩
  rfl

/-- The state after a non-empty sequence is the state one evaluation of its last
reading gives, from whatever the latch was at the start. -/
lemma evaluateAll_final (rs : List Reading) (h : rs ≠ []) (s : FireDetectionSensor) :
    (evaluateAll s rs).1 =
      (evaluate s (rs.getLast h).1 (rs.getLast h).2.1 (rs.getLast h).2.2).2.1 := by
  induction rs generalizing s with
  | nil => exact absurd rfl h
  | cons r rs ih =>
    rw [evaluateAll_cons]
    cases rs with
    | nil => rfl
    | cons r2 rs2 =>
      rw [ih (List.cons_ne_nil r2 rs2), List.getLast_cons (List.cons_ne_nil r2 rs2)]
      simp only [evaluate_state_fields]

/-- C5: a freshly constructed sensor is Monitoring; after any non-empty sequence of
readings evaluated in order from it, the latch is Alerting exactly when the last
reading exceeds at least one threshold; so two sequences with the same last reading
end in the same state. -/
theorem C5_state_is_function_of_last_reading (tempThresh smokeThresh gasThresh : Dbl) :
    (construct tempThresh smokeThresh gasThresh).alertActive = false ∧
    (∀ (rs : List Reading) (h : rs ≠ []),
      (evaluateAll (construct tempThresh smokeThresh gasThresh) rs).1.alertActive = true ↔
        breaches (construct tempThresh smokeThresh gasThresh)
          (rs.getLast h).1 (rs.getLast h).2.1 (rs.getLast h).2.2) ∧
    (∀ (rs rs2 : List Reading) (h : rs ≠ []) (h2 : rs2 ≠ []),
      rs.getLast h = rs2.getLast h2 →
        (evaluateAll (construct tempThresh smokeThresh gasThresh) rs).1 =
          (evaluateAll (construct tempThresh smokeThresh gasThresh) rs2).1) := by
  refine ⟨rfl, ?_, ?_⟩
  · intro rs h
    rw [evaluateAll_final rs h, evaluate_alertActive, evaluate_result_iff]
  · intro rs rs2 h h2 hlast
    rw [evaluateAll_final rs h, evaluateAll_final rs2 h2, hlast]

/-- C5 on two concrete histories with thresholds (60, 300, 1000): both end in the
reading (65, 100, 200) and both end Alerting. -/
theorem C5_state_is_function_of_last_reading_witness :
    (evaluateAll (construct (Dbl.fin 60) (Dbl.fin 300) (Dbl.fin 1000))
        [(Dbl.fin 40, Dbl.fin 100, Dbl.fin 200), (Dbl.fin 65, Dbl.fin 100, Dbl.fin 200)]).1 =
      (evaluateAll (construct (Dbl.fin 60) (Dbl.fin 300) (Dbl.fin 1000))
        [(Dbl.fin 65, Dbl.fin 100, Dbl.fin 200)]).1 :=
  (C5_state_is_function_of_last_reading (Dbl.fin 60) (Dbl.fin 300) (Dbl.fin 1000)).2.2
    [(Dbl.fin 40, Dbl.fin 100, Dbl.fin 200), (Dbl.fin 65, Dbl.fin 100, Dbl.fin 200)]
    [(Dbl.fin 65, Dbl.fin 100, Dbl.fin 200)] (by decide) (by decide) (by decide)

/-- Evaluating the same reading a second time returns the same boolean, keeps the
state and writes the readings line only. -/
lemma evaluate_again (s : FireDetectionSensor) (temp smoke gas : Dbl) :
    evaluate (evaluate s temp smoke gas).2.1 temp smoke gas =
      ((evaluate s temp smoke gas).1, (evaluate s temp smoke gas).2.1,
        [Line.sensorReadings temp smoke gas]) := by
  unfold evaluate triggerAlert
  rcases s with ⟨a, b, c, d⟩
  cases d <;>
    cases h1 : Dbl.gt temp a <;> cases h2 : Dbl.gt smoke b <;>
      cases h3 : Dbl.gt gas c <;> simp [h1, h2, h3]

/-- Repeating a reading from the state its first evaluation left. -/
lemma evaluateAll_replicate_again (s : FireDetectionSensor) (temp smoke gas : Dbl)
    (n : Nat) :
    evaluateAll (evaluate s temp smoke gas).2.1 (List.replicate n (temp, smoke, gas)) =
      ((evaluate s temp smoke gas).2.1,
        List.replicate n
          ((evaluate s temp smoke gas).1, [Line.sensorReadings temp smoke gas])) := by
  induction n with
  | zero => rfl
  | succ n ih =>
    rw [List.replicate_succ, evaluateAll_cons]
    simp only [evaluate_again, ih, List.replicate_succ]

/-- C6: evaluating the same reading N >= 1 times in a row ends in the state one
evaluation gives, every call returns the boolean of the first call, and calls 2..N
write the readings line only, so no "alert raised" and no "alert cleared"; from
Monitoring, a breaching reading followed by a second breaching reading writes
exactly one "alert raised" in total. -/
theorem C6_repeated_reading_idempotent (s : FireDetectionSensor) (temp smoke gas : Dbl)
    (N : Nat) (hN : 1 ≤ N) :
    (evaluateAll s (List.replicate N (temp, smoke, gas))).1 =
        (evaluate s temp smoke gas).2.1 ∧
    (evaluateAll s (List.replicate N (temp, smoke, gas))).2.length = N ∧
    (∀ c ∈ (evaluateAll s (List.replicate N (temp, smoke, gas))).2,
        c.1 = (evaluate s temp smoke gas).1) ∧
    (evaluateAll s (List.replicate N (temp, smoke, gas))).2.head? =
        some ((evaluate s temp smoke gas).1, (evaluate s temp smoke gas).2.2) ∧
    (∀ c ∈ (evaluateAll s (List.replicate N (temp, smoke, gas))).2.tail,
        c.2 = [Line.sensorReadings temp smoke gas] ∧
        raisedCount c.2 = 0 ∧ clearedCount c.2 = 0) ∧
    (s.alertActive = false → breaches s temp smoke gas →
      ∀ temp2 smoke2 gas2 : Dbl, breaches s temp2 smoke2 gas2 →
        raisedCount
          (written (evaluateAll s [(temp, smoke, gas), (temp2, smoke2, gas2)]).2) = 1) := by
  obtain ⟨n, rfl⟩ : ∃ n, N = n + 1 := ⟨N - 1, by omega⟩
  have key : evaluateAll s (List.replicate (n + 1) (temp, smoke, gas)) =
      ((evaluate s temp smoke gas).2.1,
        ((evaluate s temp smoke gas).1, (evaluate s temp smoke gas).2.2) ::
          List.replicate n
            ((evaluate s temp smoke gas).1, [Line.sensorReadings temp smoke gas])) := by
    rw [List.replicate_succ, evaluateAll_cons]
    simp only [evaluateAll_replicate_again]
  rw [key]
  refine ⟨rfl, by simp, ?_, rfl, ?_, ?_⟩
  · intro c hc
    rcases List.mem_cons.1 hc with h | h
    · rw [h]
    · rw [(List.mem_replicate.1 h).2]
  · intro c hc
    rw [List.tail_cons] at hc
    rw [(List.mem_replicate.1 hc).2]
    exact ⟨rfl, by simp [raisedCount], by simp [clearedCount]⟩
  · intro hs hb temp2 smoke2 gas2 hb2
    have hres : (evaluate s temp smoke gas).1 = true :=
      (evaluate_result_iff s temp smoke gas).2 hb
    have hact : (evaluate s temp smoke gas).2.1.alertActive = true := by
      rw [evaluate_alertActive]
      exact hres
    have e1 := evaluate_raisedCount s temp smoke gas
    have e2 := evaluate_raisedCount (evaluate s temp smoke gas).2.1 temp2 smoke2 gas2
    rw [if_pos ⟨hres, hs⟩] at e1
    rw [if_neg (by rw [hact]; simp)] at e2
    rw [evaluateAll_cons, evaluateAll_cons, evaluateAll_nil]
    simp only [written, List.append_nil]
    unfold raisedCount at e1 e2 ⊢
    rw [List.count_append, e1, e2]

/-- C6 at thresholds (60, 300, 1000), latch Monitoring, reading (65, 100, 200)
evaluated three times. -/
theorem C6_repeated_reading_idempotent_witness :
    (evaluateAll construct
        (List.replicate 3 (Dbl.fin 65, Dbl.fin 100, Dbl.fin 200))).1 =
      (evaluate construct (Dbl.fin 65) (Dbl.fin 100) (Dbl.fin 200)).2.1 ∧
    raisedCount (written (evaluateAll construct
      [(Dbl.fin 65, Dbl.fin 100, Dbl.fin 200), (Dbl.fin 70, Dbl.fin 400, Dbl.fin 200)]).2)
        = 1 :=
  ⟨(C6_repeated_reading_idempotent construct (Dbl.fin 65) (Dbl.fin 100) (Dbl.fin 200) 3
      (by decide)).1,
    (C6_repeated_reading_idempotent construct (Dbl.fin 65) (Dbl.fin 100) (Dbl.fin 200) 3
      (by decide)).2.2.2.2.2 rfl (by decide) (Dbl.fin 70) (Dbl.fin 400) (Dbl.fin 200)
      (by decide)⟩

/-! ## Constructor and frame properties -/

/-- C7 fails as stated: the constructor called with (-1, 300, 1000) yields a sensor
whose temperature threshold is -1, which is not a positive finite number. -/
theorem C7_constructor_keeps_nonpositive_threshold :
    (construct (Dbl.fin (-1)) (Dbl.fin 300) (Dbl.fin 1000)).temperatureThreshold =
        Dbl.fin (-1) ∧
      Dbl.isPositiveFinite
        (construct (Dbl.fin (-1)) (Dbl.fin 300) (Dbl.fin 1000)).temperatureThreshold =
          false := by
  decide

/-- C7 as amended: the constructor stores its arguments unchanged, so when the three
arguments are positive finite numbers the three thresholds are; the defaults
60, 300, 1000 used when no argument is given are positive finite. -/
theorem C7_constructor_positive_finite_arguments (tempThresh smokeThresh gasThresh : Dbl)
    (ht : Dbl.isPositiveFinite tempThresh = true)
    (hs : Dbl.isPositiveFinite smokeThresh = true)
    (hg : Dbl.isPositiveFinite gasThresh = true) :
    (Dbl.isPositiveFinite
        (construct tempThresh smokeThresh gasThresh).temperatureThreshold = true ∧
      Dbl.isPositiveFinite
        (construct tempThresh smokeThresh gasThresh).smokeThreshold = true ∧
      Dbl.isPositiveFinite
        (construct tempThresh smokeThresh gasThresh).gasThreshold = true) ∧
    (Dbl.isPositiveFinite construct.temperatureThreshold = true ∧
      Dbl.isPositiveFinite construct.smokeThreshold = true ∧
      Dbl.isPositiveFinite construct.gasThreshold = true) :=
  ⟨⟨ht, hs, hg⟩, by decide⟩

/-- C7 as amended, at the arguments (55, 250, 900). -/
theorem C7_constructor_positive_finite_arguments_witness :
    Dbl.isPositiveFinite
        (construct (Dbl.fin 55) (Dbl.fin 250) (Dbl.fin 900)).temperatureThreshold = true ∧
      Dbl.isPositiveFinite
        (construct (Dbl.fin 55) (Dbl.fin 250) (Dbl.fin 900)).smokeThreshold = true ∧
      Dbl.isPositiveFinite
        (construct (Dbl.fin 55) (Dbl.fin 250) (Dbl.fin 900)).gasThreshold = true :=
  (C7_constructor_positive_finite_arguments (Dbl.fin 55) (Dbl.fin 250) (Dbl.fin 900)
    (by decide) (by decide) (by decide)).1

/-- C8: the constructor stores exactly the three values it is given, 60, 300, 1000
when called without arguments; `evaluate`, `detectFire`, `triggerAlert` and
`getStatus` leave the three thresholds as they were, and the object after
`detectFire` differs from the one before in `alertActive` at most. -/
theorem C8_thresholds_immutable (tempThresh smokeThresh gasThresh : Dbl)
    (s : FireDetectionSensor) (temp smoke gas : Dbl) (g : RandStream) :
    construct tempThresh smokeThresh gasThresh =
        { temperatureThreshold := tempThresh, smokeThreshold := smokeThresh,
          gasThreshold := gasThresh, alertActive := false } ∧
    construct =
        { temperatureThreshold := Dbl.fin 60, smokeThreshold := Dbl.fin 300,
          gasThreshold := Dbl.fin 1000, alertActive := false } ∧
    ((evaluate s temp smoke gas).2.1.temperatureThreshold = s.temperatureThreshold ∧
      (evaluate s temp smoke gas).2.1.smokeThreshold = s.smokeThreshold ∧
      (evaluate s temp smoke gas).2.1.gasThreshold = s.gasThreshold) ∧
    ((detectFire s g).2.1.temperatureThreshold = s.temperatureThreshold ∧
      (detectFire s g).2.1.smokeThreshold = s.smokeThreshold ∧
      (detectFire s g).2.1.gasThreshold = s.gasThreshold) ∧
    (detectFire s g).2.1 = { s with alertActive := (detectFire s g).2.1.alertActive } ∧
    (triggerAlert s).1 = s ∧
    (getStatus s).1 = s := by
  have hd : (detectFire s g).2.1 =
      (evaluate s (Dbl.ofNat (20 + g 0 % 50)) (Dbl.ofNat (g 1 % 500))
        (Dbl.ofNat (g 2 % 1500))).2.1 := by
    rw [detectFire_eq]
  refine ⟨rfl, rfl, ?_, ?_, ?_, rfl, rfl⟩
  · rw [evaluate_state]
    exact ⟨rfl, rfl, rfl⟩
  · rw [hd, evaluate_state]
    exact ⟨rfl, rfl, rfl⟩
  · rw [hd, evaluate_state]

/-- C9: `triggerAlert` and `getStatus` return the object unchanged, the latch
included; called directly on a Monitoring sensor, `triggerAlert` writes its three
alert lines and the sensor is still Monitoring. -/
theorem C9_latch_moves_only_on_evaluation (s : FireDetectionSensor) :
    (triggerAlert s).1.alertActive = s.alertActive ∧
    (getStatus s).1.alertActive = s.alertActive ∧
    (triggerAlert s).2 =
        [Line.fireAlert, Line.emergencyProtocols, Line.notifyingAuthorities] ∧
    (getStatus s).2 =
        [Line.status s.alertActive,
          Line.thresholds s.temperatureThreshold s.smokeThreshold s.gasThreshold] ∧
    (triggerAlert construct).1.alertActive = false ∧
    raisedCount (triggerAlert construct).2 = 1 :=
  ⟨rfl, rfl, rfl, rfl, rfl, by decide⟩

/-! ## Alternation of the notifications -/

/-- Across one evaluation the expected next notification follows the latch. -/
lemma alternates_evaluate_append (s : FireDetectionSensor) (temp smoke gas : Dbl)
    (rest : List Line) :
    alternates (!s.alertActive) ((evaluate s temp smoke gas).2.2 ++ rest) =
      alternates (!(evaluate s temp smoke gas).2.1.alertActive) rest := by
  unfold evaluate triggerAlert
  rcases s with ⟨a, b, c, d⟩
  cases d <;>
    cases h1 : Dbl.gt temp a <;> cases h2 : Dbl.gt smoke b <;>
      cases h3 : Dbl.gt gas c <;> simp [h1, h2, h3, alternates]

/-- Across one call of `detectFire` the expected next notification follows the latch. -/
lemma alternates_detectFire_append (s : FireDetectionSensor) (g : RandStream)
    (rest : List Line) :
    alternates (!s.alertActive) ((detectFire s g).2.2.2 ++ rest) =
      alternates (!(detectFire s g).2.1.alertActive) rest := by
  rw [detectFire_eq]
  exact alternates_evaluate_append s _ _ _ rest

/-- A cycle header is not a notification. -/
lemma alternates_monitoringCycle (b : Bool) (k : Nat) (out : List Line) :
    alternates b (Line.monitoringCycle k :: out) = alternates b out := rfl

/-- Across one evaluation raised and cleared notifications stay balanced with the
latch. -/
lemma counts_evaluate (s : FireDetectionSensor) (temp smoke gas : Dbl) :
    raisedCount (evaluate s temp smoke gas).2.2 + (if s.alertActive then 1 else 0) =
      clearedCount (evaluate s temp smoke gas).2.2 +
        (if (evaluate s temp smoke gas).2.1.alertActive then 1 else 0) := by
  rw [evaluate_raisedCount, evaluate_clearedCount, evaluate_alertActive]
  cases (evaluate s temp smoke gas).1 <;> cases s.alertActive <;> simp

/-- Counting raised notifications over two outputs written one after the other. -/
lemma raisedCount_append (xs ys : List Line) :
    raisedCount (xs ++ ys) = raisedCount xs + raisedCount ys := by
  unfold raisedCount
  exact List.count_append _ _ _

/-- Counting cleared notifications over two outputs written one after the other. -/
lemma clearedCount_append (xs ys : List Line) :
    clearedCount (xs ++ ys) = clearedCount xs + clearedCount ys := by
  unfold clearedCount
  exact List.count_append _ _ _

/-- Alternation across a whole sequence of evaluations. -/
lemma alternates_evaluateAll_append (rs : List Reading) (s : FireDetectionSensor)
    (rest : List Line) :
    alternates (!s.alertActive) (written (evaluateAll s rs).2 ++ rest) =
      alternates (!(evaluateAll s rs).1.alertActive) rest := by
  induction rs generalizing s with
  | nil => rfl
  | cons r rs ih =>
    rw [evaluateAll_cons]
    simp only [written, List.append_assoc]
    rw [alternates_evaluate_append, ih]

/-- Balance of the counts across a whole sequence of evaluations. -/
lemma counts_evaluateAll (rs : List Reading) (s : FireDetectionSensor) :
    raisedCount (written (evaluateAll s rs).2) + (if s.alertActive then 1 else 0) =
      clearedCount (written (evaluateAll s rs).2) +
        (if (evaluateAll s rs).1.alertActive then 1 else 0) := by
  induction rs generalizing s with
  | nil => simp [evaluateAll_nil, written, raisedCount, clearedCount]
  | cons r rs ih =>
    rw [evaluateAll_cons]
    simp only [written]
    rw [raisedCount_append, clearedCount_append]
    have h1 := counts_evaluate s r.1 r.2.1 r.2.2
    have h2 := ih (evaluate s r.1 r.2.1 r.2.2).2.1
    omega

/-- What the first `k` evaluations wrote is an initial segment of the whole output. -/
lemma written_take_isPrefix (rs : List Reading) (k : Nat) (s : FireDetectionSensor) :
    written (evaluateAll s (rs.take k)).2 <+: written (evaluateAll s rs).2 := by
  induction rs generalizing s k with
  | nil => simp
  | cons r rs ih =>
    cases k with
    | zero => simp [evaluateAll_nil, written]
    | succ k =>
      rw [List.take_succ_cons, evaluateAll_cons, evaluateAll_cons]
      simp only [written]
      exact (List.prefix_append_right_inj _).2 (ih k _)

/-- Alternation across the monitoring loop of `main`. -/
lemma alternates_monitorLoop_append (n i : Nat) (s : FireDetectionSensor) (g : RandStream)
    (rest : List Line) :
    alternates (!s.alertActive) ((monitorLoop n i s g).2.2 ++ rest) =
      alternates (!(monitorLoop n i s g).1.alertActive) rest := by
  induction n generalizing i s g with
  | zero => rfl
  | succ n ih =>
    have step : monitorLoop (n + 1) i s g =
        ((monitorLoop n (i + 1) (detectFire s g).2.1 (detectFire s g).2.2.1).1,
          (monitorLoop n (i + 1) (detectFire s g).2.1 (detectFire s g).2.2.1).2.1,
          Line.monitoringCycle (i + 1) :: (detectFire s g).2.2.2 ++
            (monitorLoop n (i + 1) (detectFire s g).2.1 (detectFire s g).2.2.1).2.2) := rfl
    rw [step]
    have assoc : (Line.monitoringCycle (i + 1) :: (detectFire s g).2.2.2 ++
          (monitorLoop n (i + 1) (detectFire s g).2.1 (detectFire s g).2.2.1).2.2) ++ rest =
        Line.monitoringCycle (i + 1) :: ((detectFire s g).2.2.2 ++
          ((monitorLoop n (i + 1) (detectFire s g).2.1 (detectFire s g).2.2.1).2.2 ++
            rest)) := by
      simp
    rw [assoc, alternates_monitoringCycle, alternates_detectFire_append, ih]

/-- Balance of the counts across the monitoring loop of `main`. -/
lemma counts_monitorLoop (n i : Nat) (s : FireDetectionSensor) (g : RandStream) :
    raisedCount (monitorLoop n i s g).2.2 + (if s.alertActive then 1 else 0) =
      clearedCount (monitorLoop n i s g).2.2 +
        (if (monitorLoop n i s g).1.alertActive then 1 else 0) := by
  induction n generalizing i s g with
  | zero => simp [monitorLoop, raisedCount, clearedCount]
  | succ n ih =>
    have step : monitorLoop (n + 1) i s g =
        ((monitorLoop n (i + 1) (detectFire s g).2.1 (detectFire s g).2.2.1).1,
          (monitorLoop n (i + 1) (detectFire s g).2.1 (detectFire s g).2.2.1).2.1,
          [Line.monitoringCycle (i + 1)] ++ ((detectFire s g).2.2.2 ++
            (monitorLoop n (i + 1) (detectFire s g).2.1 (detectFire s g).2.2.1).2.2)) := rfl
    rw [step]
    simp only [raisedCount_append, clearedCount_append]
    have h0 : raisedCount [Line.monitoringCycle (i + 1)] = 0 := by simp [raisedCount]
    have h0c : clearedCount [Line.monitoringCycle (i + 1)] = 0 := by simp [clearedCount]
    have h2 := ih (i + 1) (detectFire s g).2.1 (detectFire s g).2.2.1
    have h1 := counts_evaluate s (Dbl.ofNat (20 + g 0 % 50)) (Dbl.ofNat (g 1 % 500))
      (Dbl.ofNat (g 2 % 1500))
    rw [detectFire_eq] at h2 ⊢
    simp only [] at h2 ⊢
    omega

/-- Everything `main` writes: the banner, the two status lines of the fresh sensor,
the ten cycles, the closing line. -/
lemma main_output (g : RandStream) :
    (main g).2 =
      Line.starting :: Line.status false ::
        Line.thresholds (Dbl.fin 60) (Dbl.fin 300) (Dbl.fin 1000) ::
          ((monitorLoop 10 0 construct g).2.2 ++ [Line.completed]) := by
  unfold main getStatus
  simp [construct]

/-- C10: from a freshly constructed sensor, after every initial segment of a sequence
of readings the number of "alert raised" written so far is the number of "alert
cleared" written so far when the state is Monitoring and one more when it is
Alerting; the notifications alternate raised, cleared, raised, ... starting with
raised; the same holds for all that `main` writes in its ten cycles, whatever
`rand()` returns. -/
theorem C10_notifications_alternate (tempThresh smokeThresh gasThresh : Dbl)
    (rs : List Reading) (k : Nat) (g : RandStream) :
    (written (evaluateAll (construct tempThresh smokeThresh gasThresh) (rs.take k)).2 <+:
        written (evaluateAll (construct tempThresh smokeThresh gasThresh) rs).2) ∧
    (raisedCount
        (written (evaluateAll (construct tempThresh smokeThresh gasThresh) (rs.take k)).2) =
      clearedCount
        (written (evaluateAll (construct tempThresh smokeThresh gasThresh) (rs.take k)).2) +
        (if (evaluateAll (construct tempThresh smokeThresh gasThresh)
            (rs.take k)).1.alertActive then 1 else 0)) ∧
    alternates true
        (written (evaluateAll (construct tempThresh smokeThresh gasThresh) (rs.take k)).2) =
      true ∧
    (raisedCount (main g).2 =
      clearedCount (main g).2 +
        (if (monitorLoop 10 0 construct g).1.alertActive then 1 else 0)) ∧
    alternates true (main g).2 = true := by
  refine ⟨written_take_isPrefix rs k _, ?_, ?_, ?_, ?_⟩
  · have h := counts_evaluateAll (rs.take k) (construct tempThresh smokeThresh gasThresh)
    have h0 : (construct tempThresh smokeThresh gasThresh).alertActive = false := rfl
    rw [h0] at h
    simpa using h
  · have h := alternates_evaluateAll_append (rs.take k)
      (construct tempThresh smokeThresh gasThresh) []
    have h0 : (construct tempThresh smokeThresh gasThresh).alertActive = false := rfl
    rw [h0, List.append_nil] at h
    rw [show true = !false from rfl, h]
    cases (evaluateAll (construct tempThresh smokeThresh gasThresh)
      (rs.take k)).1.alertActive <;> rfl
  · have h := counts_monitorLoop 10 0 construct g
    have h0 : (construct).alertActive = false := rfl
    rw [h0] at h
    rw [main_output]
    have e1 : ∀ out : List Line,
        raisedCount (Line.starting :: Line.status false ::
          Line.thresholds (Dbl.fin 60) (Dbl.fin 300) (Dbl.fin 1000) ::
            (out ++ [Line.completed])) = raisedCount out := by
      intro out
      simp [raisedCount]
    have e2 : ∀ out : List Line,
        clearedCount (Line.starting :: Line.status false ::
          Line.thresholds (Dbl.fin 60) (Dbl.fin 300) (Dbl.fin 1000) ::
            (out ++ [Line.completed])) = clearedCount out := by
      intro out
      simp [clearedCount]
    rw [e1, e2]
    simpa using h
  · rw [main_output]
    have h := alternates_monitorLoop_append 10 0 construct g [Line.completed]
    have h0 : (construct).alertActive = false := rfl
    rw [h0] at h
    show alternates (!false) ((monitorLoop 10 0 construct g).2.2 ++ [Line.completed]) = true
    rw [h]
    cases (monitorLoop 10 0 construct g).1.alertActive <;> rfl

end GuardianEye
